import Mathlib

/-!
Verification of the training-flow-simulator calculation core: the Time
Estimation Engine (`src/engine/timeEngine.ts`) and the Exercise
Fit/Recommendation Engine (`src/engine/fitEngine.ts`), shallowly embedded in
Lean 4.  JS numbers are modelled as `ℚ`: every formula in both engines is
closed-form arithmetic on decimal literals, exact in `ℚ`; `Math.floor`,
`Math.ceil`, `Math.round`, `Math.max`, `Math.min` and `Math.abs` become
`⌊·⌋`, `⌈·⌉`, `⌊· + 1/2⌋`, `max`, `min` and `|·|`.
-/

-- ── Core model types (src/model/types.ts) ───────────────────────────────────

inductive ExperienceLevel
  | novice
  | mixed
  | advanced
deriving DecidableEq

/-- The eleven agenda-block categories.  `break` is a Lean keyword, so the
source's `'break'` is rendered `break_`. -/
inductive BlockType
  | opening_questions
  | contract
  | lecture
  | pairs
  | groups
  | workbook
  | energizer
  | video_debrief
  | recap_module
  | recap_day
  | break_
deriving DecidableEq

inductive RoomTemplate
  | horseshoe_tables
  | horseshoe_no_tables
  | lecture_20plus
deriving DecidableEq

inductive Dynamics
  | low
  | medium
  | high
deriving DecidableEq

inductive RoomObjectType
  | table
  | chair
  | flipchart
  | screen
  | projector
  | zone
  | facilitator_spot
deriving DecidableEq

structure QuestionConfig where
  questions : List String
  persons_per_question : ℚ
  questions_per_group : ℚ
  seconds_per_question_prompt : ℚ
  seconds_per_answer : ℚ
  expected_answers_per_question : ℚ
deriving DecidableEq

structure RequiredAssets where
  tables : Bool
  flipchart_count : ℚ
  screen : Bool
deriving DecidableEq

structure RoomObject where
  id : String
  type : RoomObjectType
  x : ℚ
  y : ℚ
  width : ℚ
  height : ℚ
  rotation : ℚ
  label : Option String := none
deriving DecidableEq

structure RoomLayout where
  template : RoomTemplate
  width : ℚ
  height : ℚ
  objects : List RoomObject
  flipchart_count : ℚ
  has_screen : Bool
  has_tables : Bool
deriving DecidableEq

structure AgendaBlock where
  id : String
  type : BlockType
  title : String
  window_minutes : ℚ
  exercise_id : Option String := none
  method : Option String := none
  required_assets : RequiredAssets
  materials : String
  workbook_link : String
  facilitator_notes : String
  order : ℚ
  question_config : Option QuestionConfig := none
  estimated_minutes : Option ℚ := none
  fits_in_window : Option Bool := none
deriving DecidableEq

structure Exercise where
  id : String
  title : String
  type : BlockType
  description : String
  time_range_min : ℚ
  time_range_max : ℚ
  participant_range_min : ℚ
  participant_range_max : ℚ
  requires_tables : Bool
  requires_flipchart_count : ℚ
  requires_screen : Bool
  dynamics : Dynamics
  facilitator_steps : List String
  workbook_link : String
  tags : List String
deriving DecidableEq

structure TimeEstimate where
  base_minutes : ℚ
  experience_modifier_minutes : ℚ
  overhead_minutes : ℚ
  interaction_minutes : ℚ
  total_minutes : ℚ
deriving DecidableEq

structure FitResult where
  exercise_id : String
  fits : Bool
  estimated_minutes : ℚ
  reason : Option String := none
deriving DecidableEq

structure Recommendation where
  exercise : Exercise
  estimated_minutes : ℚ
  fit_score : ℚ
  reason : String
deriving DecidableEq

-- ── JS numeric/string helpers used by the embedding ─────────────────────────

/-- JS `Math.round`: round half toward positive infinity, `⌊x + 1/2⌋`. -/
def jsRound (q : ℚ) : ℤ := ⌊q + 1 / 2⌋

/-- JS `%` (truncating remainder, sign of the dividend) for an integer
dividend and positive integer divisor. -/
def jsRem (a b : ℤ) : ℤ := if 0 ≤ a then a % b else -((-a) % b)

/-- JS template-literal rendering `${n}` of a number: exact for integral
values (the only values the engines interpolate in practice); a non-integral
rational is rendered as `num/den`. -/
def numStr (q : ℚ) : String :=
  if q.den = 1 then toString q.num else toString q.num ++ "/" ++ toString q.den

/-- JS `Number.prototype.toFixed(1)`: nearest multiple of `0.1` (ties away
from zero), rendered with one decimal digit. -/
def qToFixed1 (q : ℚ) : String :=
  let t : ℤ := if 0 ≤ q then ⌊q * 10 + 1 / 2⌋ else -⌊-q * 10 + 1 / 2⌋
  let sign := if t < 0 then "-" else ""
  sign ++ toString (t.natAbs / 10) ++ "." ++ toString (t.natAbs % 10)

/-- Split a character list at every occurrence of `c` (JS
`String.prototype.split` restricted to a single-character separator). -/
def splitOnChar (c : Char) : List Char → List (List Char)
  | [] => [[]]
  | x :: xs =>
    match splitOnChar c xs with
    | [] => [[x]]
    | h :: t => if x = c then [] :: h :: t else (x :: h) :: t

def digitsToNatAux : List Char → Option ℕ → Option ℕ
  | [], acc => acc
  | c :: cs, acc =>
    if c.isDigit then
      digitsToNatAux cs (some ((acc.getD 0) * 10 + (c.toNat - 48)))
    else none

/-- JS `Number(s)` on the digit strings appearing in a well-formed `HH:MM`
time: `some` of the decimal value of a non-empty digit string, `none`
otherwise (`none` standing in for JS `NaN`). -/
def digitsToNat (cs : List Char) : Option ℕ := digitsToNatAux cs none

/-- JS `String(n).padStart(2, '0')` for an integer `n`. -/
def pad2 (n : ℤ) : String :=
  let s := toString n
  if s.length < 2 then "0" ++ s else s

-- ── Time Estimation Engine (src/engine/timeEngine.ts) ───────────────────────

/-- Delta minutes added by the audience experience level: novice +20 percent
of base, advanced -20 percent, mixed (and the unreachable default arm) 0. -/
def calculateExperienceModifier (base_minutes : ℚ) (level : ExperienceLevel) : ℚ :=
  match level with
  | .novice => base_minutes * 0.2
  | .advanced => base_minutes * (-0.2)
  | .mixed => 0

/-- Transition / setup overhead based on method and room size. -/
def calculateOverhead (participant_count : ℚ) (method : BlockType)
    (room_template : RoomTemplate) : ℚ :=
  let overhead : ℚ :=
    match method with
    | .groups => 3 + 0.3 * participant_count
    | .pairs => 2 + 0.15 * participant_count
    | .workbook => 1 + 0.1 * participant_count
    | .video_debrief => 2
    | .lecture => 1
    | .energizer => 1
    | _ => 0.5
  if room_template = .lecture_20plus then overhead + 1 else overhead

/-- Auto-suggested question count:
`ceil(participant_count / persons_per_question) * questions_per_group`. -/
def getSuggestedQuestionCount (participant_count persons_per_question
    questions_per_group : ℚ) : ℚ :=
  (⌈participant_count / persons_per_question⌉ : ℚ) * questions_per_group

/-- Time consumed by Q&A / interaction rounds, in minutes. -/
def calculateInteractionMinutes (question_config : Option QuestionConfig)
    (participant_count : ℚ) : ℚ :=
  match question_config with
  | none => 0
  | some qc =>
    let autoCount := getSuggestedQuestionCount participant_count
      qc.persons_per_question qc.questions_per_group
    let questionsCount := max autoCount (qc.questions.length : ℚ)
    let totalSeconds := questionsCount *
      (qc.seconds_per_question_prompt +
        qc.expected_answers_per_question * qc.seconds_per_answer)
    totalSeconds / 60

/-- The named-parameter object taken by `estimateBlockTime`. -/
structure EstimateParams where
  base_minutes : ℚ
  experience_level : ExperienceLevel
  participant_count : ℚ
  method : BlockType
  room_template : RoomTemplate
  question_config : Option QuestionConfig := none
deriving DecidableEq

/-- Combines experience modifier, overhead, and interaction into a full
estimate. -/
def estimateBlockTime (params : EstimateParams) : TimeEstimate :=
  let experience_modifier_minutes :=
    calculateExperienceModifier params.base_minutes params.experience_level
  let overhead_minutes :=
    calculateOverhead params.participant_count params.method params.room_template
  let interaction_minutes :=
    calculateInteractionMinutes params.question_config params.participant_count
  { base_minutes := params.base_minutes
    experience_modifier_minutes := experience_modifier_minutes
    overhead_minutes := overhead_minutes
    interaction_minutes := interaction_minutes
    total_minutes := params.base_minutes + experience_modifier_minutes +
      overhead_minutes + interaction_minutes }

/-- The minutes contributed by an optional `HH:MM` start time: hours times 60
plus minutes.  A malformed start time (fewer than two `:`-separated digit
fields) is outside the modelled domain — JS propagates `NaN` there. -/
def startOffsetMinutes (start_time : Option String) : ℤ :=
  match start_time with
  | none => 0
  | some st =>
    match splitOnChar ':' st.toList with
    | hs :: ms :: _ =>
      ((digitsToNat hs).getD 0 : ℤ) * 60 + ((digitsToNat ms).getD 0 : ℤ)
    | _ => 0

/-- Converts a minutes offset to `HH:MM`.  If `start_time` is provided, adds
the offset to it; hours wrap modulo 24. -/
def formatMinutesToTime (minutes : ℚ) (start_time : Option String := none) : String :=
  let totalMinutes : ℤ := jsRound minutes + startOffsetMinutes start_time
  let h := jsRem ⌊(totalMinutes : ℚ) / 60⌋ 24
  let m := jsRem totalMinutes 60
  pad2 h ++ ":" ++ pad2 m

-- ── Exercise Fit Engine (src/engine/fitEngine.ts) ───────────────────────────

/-- Hard-filter pipeline: participants, room assets, time window.  The time
estimate of step 5 uses `exercise.time_range_max` as the base and
`exercise.type` as the method. -/
def checkExerciseFit (exercise : Exercise) (block : AgendaBlock)
    (room : RoomLayout) (participant_count : ℚ)
    (experience_level : ExperienceLevel) : FitResult :=
  if participant_count < exercise.participant_range_min ∨
      participant_count > exercise.participant_range_max then
    { exercise_id := exercise.id, fits := false, estimated_minutes := 0,
      reason := some ("Participant count " ++ numStr participant_count ++
        " outside range " ++ numStr exercise.participant_range_min ++ "-" ++
        numStr exercise.participant_range_max) }
  else if exercise.requires_tables && !room.has_tables then
    { exercise_id := exercise.id, fits := false, estimated_minutes := 0,
      reason := some "Exercise requires tables but room has none" }
  else if exercise.requires_flipchart_count > room.flipchart_count then
    { exercise_id := exercise.id, fits := false, estimated_minutes := 0,
      reason := some ("Exercise needs " ++ numStr exercise.requires_flipchart_count ++
        " flipcharts, room has " ++ numStr room.flipchart_count) }
  else if exercise.requires_screen && !room.has_screen then
    { exercise_id := exercise.id, fits := false, estimated_minutes := 0,
      reason := some "Exercise requires a screen but room has none" }
  else
    let estimate := estimateBlockTime
      { base_minutes := exercise.time_range_max
        experience_level := experience_level
        participant_count := participant_count
        method := exercise.type
        room_template := room.template
        question_config := block.question_config }
    if estimate.total_minutes > block.window_minutes then
      { exercise_id := exercise.id, fits := false,
        estimated_minutes := estimate.total_minutes,
        reason := some ("Estimated " ++ qToFixed1 estimate.total_minutes ++
          " min exceeds " ++ numStr block.window_minutes ++ " min window") }
    else
      { exercise_id := exercise.id, fits := true,
        estimated_minutes := estimate.total_minutes }

/-- Weighted-sum score of an exercise that already passed the hard filters. -/
def scoreExercise (exercise : Exercise) (block : AgendaBlock)
    (estimated_minutes participant_count : ℚ) : ℚ :=
  let timeRatio := estimated_minutes / block.window_minutes
  let fitsTimeScore := if timeRatio ≤ 1 then timeRatio else 0
  let range := exercise.participant_range_max - exercise.participant_range_min
  let midpoint := exercise.participant_range_min + range / 2
  let deviation := |participant_count - midpoint|
  let participantScore := if range > 0 then 1 - deviation / (range / 2) else 1
  let clampedParticipantScore := max 0 (min 1 participantScore)
  let assetDemand :=
    (if exercise.requires_tables then (1 : ℚ) else 0) +
    exercise.requires_flipchart_count +
    (if exercise.requires_screen then (1 : ℚ) else 0)
  let assetScore := max 0 (1 - assetDemand * 0.1)
  let dynamicsScore : ℚ := 1
  fitsTimeScore * 0.4 + clampedParticipantScore * 0.3 +
    assetScore * 0.2 + dynamicsScore * 0.1

/-- The generated explanation string of a Recommendation. -/
def generateReason (exercise : Exercise) (estimated_minutes : ℚ)
    (block : AgendaBlock) : String :=
  let timeUsage := jsRound (estimated_minutes / block.window_minutes * 100)
  exercise.title ++ " fills " ++ toString timeUsage ++ "% of the " ++
    numStr block.window_minutes ++ "-min window for " ++
    numStr exercise.participant_range_min ++ "-" ++
    numStr exercise.participant_range_max ++ " participants."

/-- A fit-checked, scored candidate, as accumulated in the `scored` array of
`getRecommendations`. -/
structure ScoredEntry where
  exercise : Exercise
  fitResult : FitResult
  score : ℚ
deriving DecidableEq

/-- Insert into a score-descending list, after any entry of equal score. -/
def insertByScoreDesc (x : ℕ × ScoredEntry) :
    List (ℕ × ScoredEntry) → List (ℕ × ScoredEntry)
  | [] => [x]
  | y :: ys =>
    if y.snd.score ≤ x.snd.score then x :: y :: ys
    else y :: insertByScoreDesc x ys

/-- JS `scored.sort((a, b) => b.score - a.score)`: `Array.prototype.sort` is
stable and the comparator induces a total preorder on scores, so the sorted
array is the unique stable score-descending reordering; a stable insertion
sort computes exactly that. -/
def sortByScoreDesc : List (ℕ × ScoredEntry) → List (ℕ × ScoredEntry)
  | [] => []
  | x :: xs => insertByScoreDesc x (sortByScoreDesc xs)

/-- Steps 1-2 of `getRecommendations`: filter the catalog by block type, run
the fit check on each candidate, keep and score the survivors (in catalog
order, as the source's push loop does). -/
def survivingCandidates (library : List Exercise) (block : AgendaBlock)
    (room : RoomLayout) (participant_count : ℚ)
    (experience_level : ExperienceLevel) : List ScoredEntry :=
  (library.filter fun ex => decide (ex.type = block.type)).filterMap
    fun exercise =>
      let fitResult := checkExerciseFit exercise block room participant_count
        experience_level
      if fitResult.fits = true then
        some { exercise := exercise, fitResult := fitResult,
               score := scoreExercise exercise block fitResult.estimated_minutes
                 participant_count }
      else none

/-- Step 3 of `getRecommendations`: the in-place stable sort by score
descending.  JS `includes` compares by object identity and every entry pushed
into `scored` is a distinct object, so each entry is tagged with its index in
the pre-sort array to model identity. -/
def rankCandidates (l : List ScoredEntry) : List (ℕ × ScoredEntry) :=
  sortByScoreDesc l.enum

/-- Conversion of a picked entry to the returned `Recommendation`
(`Math.round(score * 100) / 100` for the displayed fit score). -/
def convertPick (block : AgendaBlock) (s : ℕ × ScoredEntry) : Recommendation :=
  { exercise := s.snd.exercise
    estimated_minutes := s.snd.fitResult.estimated_minutes
    fit_score := (jsRound (s.snd.score * 100) : ℚ) / 100
    reason := generateReason s.snd.exercise s.snd.fitResult.estimated_minutes block }

/-- Returns top 5: 3 main + 2 rescue (shorter alternatives).

Modelled from the spec: the static catalog `EXERCISE_LIBRARY`
(src/library/exercises.ts) is not among the available sources; the spec fixes
only that it is a fixed read-only catalog of 30 entries, never mutated.  The
engine is therefore embedded with the catalog as an explicit `library`
parameter and its properties are proved for every catalog. -/
def getRecommendations (library : List Exercise) (block : AgendaBlock)
    (room : RoomLayout) (participant_count : ℚ)
    (experience_level : ExperienceLevel) : List Recommendation :=
  let sorted := rankCandidates
    (survivingCandidates library block room participant_count experience_level)
  let mainPicks := sorted.take 3
  let rescueThreshold := block.window_minutes * 0.7
  let mainIds := mainPicks.map Prod.fst
  let rescue0 := (sorted.filter fun s =>
    !(mainIds.contains s.fst) &&
      decide (s.snd.exercise.time_range_max < rescueThreshold)).take 2
  let rescueIds := rescue0.map Prod.fst
  let remaining := sorted.filter fun s =>
    !(mainIds.contains s.fst) && !(rescueIds.contains s.fst)
  let rescueCandidates := rescue0 ++ remaining.take (2 - rescue0.length)
  let allPicks := mainPicks ++ rescueCandidates
  allPicks.map (convertPick block)

/-- The recommendation list exactly as the specification words it: survivors
sorted by score descending; the first min(3, n) as main picks; up to two
rescue picks, preferring not-already-picked candidates whose
`time_range_max < 0.7 × window_minutes` in score order, then backfilling from
the remaining highest-scored candidates until two rescue slots are filled or
candidates are exhausted; main picks followed by rescue picks. -/
def getRecommendationsSpec (library : List Exercise) (block : AgendaBlock)
    (room : RoomLayout) (participant_count : ℚ)
    (experience_level : ExperienceLevel) : List Recommendation :=
  let ranked := rankCandidates
    (survivingCandidates library block room participant_count experience_level)
  let main := ranked.take 3
  let preferred := (ranked.filter fun s =>
    !((main.map Prod.fst).contains s.fst) &&
      decide (s.snd.exercise.time_range_max < block.window_minutes * 0.7)).take 2
  let backfill := (ranked.filter fun s =>
    !((main.map Prod.fst).contains s.fst) &&
      !((preferred.map Prod.fst).contains s.fst)).take (2 - preferred.length)
  (main ++ preferred ++ backfill).map (convertPick block)

-- ── Sample data (mirroring the factories of src/engine/fitEngine.test.ts) ───

def sampleExercise : Exercise :=
  { id := "ex-1", title := "Test Exercise", type := .groups,
    description := "A test exercise",
    time_range_min := 15, time_range_max := 25,
    participant_range_min := 6, participant_range_max := 20,
    requires_tables := false, requires_flipchart_count := 0,
    requires_screen := false, dynamics := .medium,
    facilitator_steps := ["Step 1", "Step 2"], workbook_link := "",
    tags := ["test"] }

def sampleBlock : AgendaBlock :=
  { id := "block-1", type := .groups, title := "Test Block",
    window_minutes := 45,
    required_assets := { tables := false, flipchart_count := 0, screen := false },
    materials := "", workbook_link := "", facilitator_notes := "", order := 1 }

def sampleRoom : RoomLayout :=
  { template := .horseshoe_tables, width := 800, height := 600, objects := [],
    flipchart_count := 2, has_screen := true, has_tables := true }

def sampleQuestionConfig : QuestionConfig :=
  { questions := ["Q1", "Q2", "Q3"], persons_per_question := 5,
    questions_per_group := 2, seconds_per_question_prompt := 15,
    seconds_per_answer := 30, expected_answers_per_question := 3 }

-- ── Theorems ────────────────────────────────────────────────────────────────

/-- C1: for every input, the `TimeEstimate` returned by `estimateBlockTime`
satisfies `total_minutes = base_minutes + experience_modifier_minutes +
overhead_minutes + interaction_minutes`, exactly. -/
theorem estimateBlockTime_total_eq_sum (params : EstimateParams) :
    (estimateBlockTime params).total_minutes =
      (estimateBlockTime params).base_minutes +
      (estimateBlockTime params).experience_modifier_minutes +
      (estimateBlockTime params).overhead_minutes +
      (estimateBlockTime params).interaction_minutes := rfl

/-- C6: `calculateExperienceModifier` returns `base × 0.20` for novice, `0`
for mixed and `base × (−0.20)` for advanced — in particular `20`, `0` and
`−20` at base 100 — and the modifier scales linearly with `base_minutes`. -/
theorem calculateExperienceModifier_spec :
    (∀ b : ℚ, calculateExperienceModifier b .novice = b * 0.2) ∧
    (∀ b : ℚ, calculateExperienceModifier b .mixed = 0) ∧
    (∀ b : ℚ, calculateExperienceModifier b .advanced = b * (-0.2)) ∧
    calculateExperienceModifier 100 .novice = 20 ∧
    calculateExperienceModifier 100 .mixed = 0 ∧
    calculateExperienceModifier 100 .advanced = -20 ∧
    (∀ (c b : ℚ) (level : ExperienceLevel),
      calculateExperienceModifier (c * b) level =
        c * calculateExperienceModifier b level) := by
  refine ⟨fun b => rfl, fun b => rfl, fun b => rfl,
    by norm_num [calculateExperienceModifier],
    rfl,
    by norm_num [calculateExperienceModifier],
    fun c b level => ?_⟩
  cases level <;> simp [calculateExperienceModifier] <;> ring

/-- C5: `calculateOverhead` follows the method lookup table (groups
`3 + 0.3p`, pairs `2 + 0.15p`, workbook `1 + 0.1p`, video+debrief `2`,
lecture `1`, energizer `1`, every other method `0.5`), plus one extra minute
whenever the room template is the large-lecture layout; in particular
`calculateOverhead 12 groups horseshoe_tables = 6.6` and
`calculateOverhead 12 lecture lecture_20plus = 2`. -/
theorem calculateOverhead_spec :
    (∀ (pc : ℚ) (rt : RoomTemplate), calculateOverhead pc .groups rt =
      3 + 0.3 * pc + (if rt = .lecture_20plus then 1 else 0)) ∧
    (∀ (pc : ℚ) (rt : RoomTemplate), calculateOverhead pc .pairs rt =
      2 + 0.15 * pc + (if rt = .lecture_20plus then 1 else 0)) ∧
    (∀ (pc : ℚ) (rt : RoomTemplate), calculateOverhead pc .workbook rt =
      1 + 0.1 * pc + (if rt = .lecture_20plus then 1 else 0)) ∧
    (∀ (pc : ℚ) (rt : RoomTemplate), calculateOverhead pc .video_debrief rt =
      2 + (if rt = .lecture_20plus then 1 else 0)) ∧
    (∀ (pc : ℚ) (rt : RoomTemplate), calculateOverhead pc .lecture rt =
      1 + (if rt = .lecture_20plus then 1 else 0)) ∧
    (∀ (pc : ℚ) (rt : RoomTemplate), calculateOverhead pc .energizer rt =
      1 + (if rt = .lecture_20plus then 1 else 0)) ∧
    (∀ (pc : ℚ) (rt : RoomTemplate) (method : BlockType),
      method ∉ ([.groups, .pairs, .workbook, .video_debrief, .lecture,
        .energizer] : List BlockType) →
      calculateOverhead pc method rt =
        0.5 + (if rt = .lecture_20plus then 1 else 0)) ∧
    calculateOverhead 12 .groups .horseshoe_tables = 6.6 ∧
    calculateOverhead 12 .lecture .lecture_20plus = 2 := by
  refine ⟨?_, ?_, ?_, ?_, ?_, ?_, ?_, ?_, ?_⟩
  · intro pc rt; cases rt <;> simp [calculateOverhead]
  · intro pc rt; cases rt <;> simp [calculateOverhead]
  · intro pc rt; cases rt <;> simp [calculateOverhead]
  · intro pc rt; cases rt <;> simp [calculateOverhead]
  · intro pc rt; cases rt <;> simp [calculateOverhead]
  · intro pc rt; cases rt <;> simp [calculateOverhead]
  · intro pc rt method hm
    cases method <;> simp at hm <;> cases rt <;> simp [calculateOverhead]
  · have hne : RoomTemplate.horseshoe_tables ≠ RoomTemplate.lecture_20plus := by
      decide
    norm_num [calculateOverhead, hne]
  · norm_num [calculateOverhead]

/-- C5 witness: the "any other method" clause instantiated at the `contract`
method for both room layouts. -/
theorem calculateOverhead_spec_witness :
    calculateOverhead 12 .contract .horseshoe_tables = 0.5 ∧
    calculateOverhead 12 .contract .lecture_20plus = 1.5 := by
  have h := calculateOverhead_spec.2.2.2.2.2.2.1 12
  constructor
  · have h1 := h .horseshoe_tables .contract (by simp)
    rw [if_neg (by decide)] at h1
    linarith
  · have h2 := h .lecture_20plus .contract (by simp)
    rw [if_pos rfl] at h2
    linarith

/-- C7: `calculateInteractionMinutes` returns 0 with no question
configuration, and otherwise
`questions_count × (prompt + answers_per_question × seconds_per_answer) / 60`
with `questions_count = max(ceil(participants / persons_per_question) ×
questions_per_group, number of manually entered questions)`; on the spec's
worked example (3 manual questions, 5 persons per question, 2 questions per
group, 15 s prompt, 3 answers of 30 s, 12 participants) it is exactly 10.5. -/
theorem calculateInteractionMinutes_spec :
    (∀ pc : ℚ, calculateInteractionMinutes none pc = 0) ∧
    (∀ (qc : QuestionConfig) (pc : ℚ),
      calculateInteractionMinutes (some qc) pc =
        max ((⌈pc / qc.persons_per_question⌉ : ℚ) * qc.questions_per_group)
            (qc.questions.length : ℚ) *
          (qc.seconds_per_question_prompt +
            qc.expected_answers_per_question * qc.seconds_per_answer) / 60) ∧
    calculateInteractionMinutes (some sampleQuestionConfig) 12 = 10.5 := by
  refine ⟨fun pc => rfl, fun qc pc => rfl, ?_⟩
  have hc : (⌈(12 : ℚ) / 5⌉ : ℤ) = 3 := by
    rw [Int.ceil_eq_iff]
    norm_num
  simp only [calculateInteractionMinutes, getSuggestedQuestionCount,
    sampleQuestionConfig]
  norm_num [hc]

theorem startOffsetMinutes_nonneg (st : Option String) :
    0 ≤ startOffsetMinutes st := by
  cases st with
  | none => simp [startOffsetMinutes]
  | some s =>
    simp only [startOffsetMinutes]
    rcases h : splitOnChar ':' s.toList with _ | ⟨hs, tl⟩
    · simp
    · rcases tl with _ | ⟨ms, rest⟩
      · simp
      · positivity

theorem jsRound_nonneg {m : ℚ} (hm : 0 ≤ m) : 0 ≤ jsRound m :=
  Int.le_floor.mpr (by push_cast; linarith)

theorem jsRound_add_1440 (m : ℚ) : jsRound (m + 24 * 60) = jsRound m + 1440 := by
  unfold jsRound
  have h : m + 24 * 60 + 1 / 2 = m + 1 / 2 + ((1440 : ℤ) : ℚ) := by
    push_cast; ring
  rw [h, Int.floor_add_int]

theorem jsRound_int (n : ℤ) : jsRound (n : ℚ) = n := by
  unfold jsRound
  rw [add_comm, Int.floor_add_int]
  norm_num

theorem formatMinutesToTime_eq (m : ℚ) (st : Option String) :
    formatMinutesToTime m st =
      pad2 (jsRem ⌊((jsRound m + startOffsetMinutes st : ℤ) : ℚ) / 60⌋ 24) ++
        ":" ++ pad2 (jsRem (jsRound m + startOffsetMinutes st) 60) := rfl

/-- C9: `formatMinutesToTime` rounds the minutes offset to the nearest
integer, optionally adds an `HH:MM` start time, and renders a 24-hour clock
string wrapping modulo 24 hours; in particular
`formatMinutesToTime 90 "09:00" = "10:30"`,
`formatMinutesToTime 120 "23:00" = "01:00"` and
`formatMinutesToTime 0 = "00:00"`.  Wrapping is stated as invariance under
adding 24 × 60 minutes, and rounding as invariance under replacing the offset
by its rounded value. -/
theorem formatMinutesToTime_spec :
    (∀ (m : ℚ) (st : Option String), 0 ≤ m →
      formatMinutesToTime (m + 24 * 60) st = formatMinutesToTime m st) ∧
    (∀ (m : ℚ) (st : Option String),
      formatMinutesToTime m st = formatMinutesToTime ((jsRound m : ℤ) : ℚ) st) ∧
    formatMinutesToTime 90 (some "09:00") = "10:30" ∧
    formatMinutesToTime 120 (some "23:00") = "01:00" ∧
    formatMinutesToTime 0 = "00:00" := by
  refine ⟨?_, ?_, ?_, ?_, ?_⟩
  · intro m st hm
    rw [formatMinutesToTime_eq, formatMinutesToTime_eq, jsRound_add_1440]
    set t := jsRound m + startOffsetMinutes st with ht
    have htn : 0 ≤ t := add_nonneg (jsRound_nonneg hm) (startOffsetMinutes_nonneg st)
    have harr : jsRound m + 1440 + startOffsetMinutes st = t + 1440 := by omega
    rw [harr]
    have hh : ⌊((t + 1440 : ℤ) : ℚ) / 60⌋ = ⌊(t : ℚ) / 60⌋ + 24 := by
      have hcast : ((t + 1440 : ℤ) : ℚ) / 60 = (t : ℚ) / 60 + ((24 : ℤ) : ℚ) := by
        push_cast; ring
      rw [hcast, Int.floor_add_int]
    have hfl : 0 ≤ ⌊(t : ℚ) / 60⌋ := Int.le_floor.mpr (by positivity)
    have hrem1 : jsRem (⌊(t : ℚ) / 60⌋ + 24) 24 = jsRem ⌊(t : ℚ) / 60⌋ 24 := by
      unfold jsRem
      rw [if_pos (by omega), if_pos hfl]
      omega
    have hrem2 : jsRem (t + 1440) 60 = jsRem t 60 := by
      unfold jsRem
      rw [if_pos (by omega), if_pos htn]
      omega
    rw [hh, hrem1, hrem2]
  · intro m st
    rw [formatMinutesToTime_eq, formatMinutesToTime_eq, jsRound_int]
  · rw [formatMinutesToTime_eq,
      show jsRound (90 : ℚ) = 90 by simpa using jsRound_int 90,
      show startOffsetMinutes (some "09:00") = 540 by decide]
    norm_num
    decide
  · rw [formatMinutesToTime_eq,
      show jsRound (120 : ℚ) = 120 by simpa using jsRound_int 120,
      show startOffsetMinutes (some "23:00") = 1380 by decide]
    norm_num
    decide
  · rw [show formatMinutesToTime 0 = formatMinutesToTime 0 none from rfl,
      formatMinutesToTime_eq,
      show jsRound (0 : ℚ) = 0 by simpa using jsRound_int 0,
      show startOffsetMinutes none = 0 from rfl]
    norm_num
    decide

/-- C9 witness: the wrapping clause instantiated at offset 30 past "09:00"
(both sides render "09:30"), discharging the nonnegativity hypothesis. -/
theorem formatMinutesToTime_spec_witness :
    formatMinutesToTime (30 + 24 * 60) (some "09:00") =
      formatMinutesToTime 30 (some "09:00") :=
  formatMinutesToTime_spec.1 30 (some "09:00") (by norm_num)

/-- The body of `checkExerciseFit` with the `estimate` binding zeta-expanded
(definitional equality), convenient for case analysis. -/
theorem checkExerciseFit_def (exercise : Exercise) (block : AgendaBlock)
    (room : RoomLayout) (pc : ℚ) (lvl : ExperienceLevel) :
    checkExerciseFit exercise block room pc lvl =
      if pc < exercise.participant_range_min ∨
          pc > exercise.participant_range_max then
        { exercise_id := exercise.id, fits := false, estimated_minutes := 0,
          reason := some ("Participant count " ++ numStr pc ++
            " outside range " ++ numStr exercise.participant_range_min ++ "-" ++
            numStr exercise.participant_range_max) }
      else if exercise.requires_tables && !room.has_tables then
        { exercise_id := exercise.id, fits := false, estimated_minutes := 0,
          reason := some "Exercise requires tables but room has none" }
      else if exercise.requires_flipchart_count > room.flipchart_count then
        { exercise_id := exercise.id, fits := false, estimated_minutes := 0,
          reason := some ("Exercise needs " ++
            numStr exercise.requires_flipchart_count ++ " flipcharts, room has " ++
            numStr room.flipchart_count) }
      else if exercise.requires_screen && !room.has_screen then
        { exercise_id := exercise.id, fits := false, estimated_minutes := 0,
          reason := some "Exercise requires a screen but room has none" }
      else if (estimateBlockTime
          { base_minutes := exercise.time_range_max
            experience_level := lvl
            participant_count := pc
            method := exercise.type
            room_template := room.template
            question_config := block.question_config }).total_minutes >
          block.window_minutes then
        { exercise_id := exercise.id, fits := false,
          estimated_minutes := (estimateBlockTime
            { base_minutes := exercise.time_range_max
              experience_level := lvl
              participant_count := pc
              method := exercise.type
              room_template := room.template
              question_config := block.question_config }).total_minutes,
          reason := some ("Estimated " ++ qToFixed1 (estimateBlockTime
            { base_minutes := exercise.time_range_max
              experience_level := lvl
              participant_count := pc
              method := exercise.type
              room_template := room.template
              question_config := block.question_config }).total_minutes ++
            " min exceeds " ++ numStr block.window_minutes ++ " min window") }
      else
        { exercise_id := exercise.id, fits := true,
          estimated_minutes := (estimateBlockTime
            { base_minutes := exercise.time_range_max
              experience_level := lvl
              participant_count := pc
              method := exercise.type
              room_template := room.template
              question_config := block.question_config }).total_minutes } := rfl

/-- C10: a `FitResult` from `checkExerciseFit` carries a reason string exactly
when `fits` is false; `estimated_minutes` is 0 when the failure comes from the
participant-range, tables, flipchart or screen filter, and equals the full
projected estimate's total for the time-window failure. -/
theorem checkExerciseFit_failure_reporting (exercise : Exercise)
    (block : AgendaBlock) (room : RoomLayout) (pc : ℚ)
    (lvl : ExperienceLevel) :
    ((checkExerciseFit exercise block room pc lvl).reason.isSome = true ↔
      (checkExerciseFit exercise block room pc lvl).fits = false) ∧
    ((pc < exercise.participant_range_min ∨ exercise.participant_range_max < pc) ∨
      (exercise.requires_tables = true ∧ room.has_tables = false) ∨
      room.flipchart_count < exercise.requires_flipchart_count ∨
      (exercise.requires_screen = true ∧ room.has_screen = false) →
      (checkExerciseFit exercise block room pc lvl).estimated_minutes = 0) ∧
    (¬ ((pc < exercise.participant_range_min ∨ exercise.participant_range_max < pc) ∨
        (exercise.requires_tables = true ∧ room.has_tables = false) ∨
        room.flipchart_count < exercise.requires_flipchart_count ∨
        (exercise.requires_screen = true ∧ room.has_screen = false)) →
      block.window_minutes <
        (estimateBlockTime
          { base_minutes := exercise.time_range_max
            experience_level := lvl
            participant_count := pc
            method := exercise.type
            room_template := room.template
            question_config := block.question_config }).total_minutes →
      (checkExerciseFit exercise block room pc lvl).fits = false ∧
      (checkExerciseFit exercise block room pc lvl).estimated_minutes =
        (estimateBlockTime
          { base_minutes := exercise.time_range_max
            experience_level := lvl
            participant_count := pc
            method := exercise.type
            room_template := room.template
            question_config := block.question_config }).total_minutes) := by
  refine ⟨?_, ?_, ?_⟩
  · rw [checkExerciseFit_def]
    split_ifs <;> simp
  · intro h
    rw [checkExerciseFit_def]
    split_ifs with h1 h2 h3 h4 h5
    · rfl
    · rfl
    · rfl
    · rfl
    all_goals
      exfalso
      simp only [Bool.and_eq_true, Bool.not_eq_true'] at h2 h4
      rcases h with h | h | h | h
      · exact h1 h
      · exact h2 ⟨h.1, h.2⟩
      · exact h3 h
      · exact h4 ⟨h.1, h.2⟩
  · intro hne hlt
    rw [checkExerciseFit_def]
    split_ifs with h1 h2 h3 h4
    · exact absurd (Or.inl h1) hne
    · simp only [Bool.and_eq_true, Bool.not_eq_true'] at h2
      exact absurd (Or.inr (Or.inl h2)) hne
    · exact absurd (Or.inr (Or.inr (Or.inl h3))) hne
    · simp only [Bool.and_eq_true, Bool.not_eq_true'] at h4
      exact absurd (Or.inr (Or.inr (Or.inr h4))) hne
    · exact ⟨rfl, rfl⟩

theorem checkExerciseFit_rangeFail (exercise : Exercise) (block : AgendaBlock)
    (room : RoomLayout) (pc : ℚ) (lvl : ExperienceLevel)
    (h : pc < exercise.participant_range_min ∨
      pc > exercise.participant_range_max) :
    checkExerciseFit exercise block room pc lvl =
      { exercise_id := exercise.id, fits := false, estimated_minutes := 0,
        reason := some ("Participant count " ++ numStr pc ++
          " outside range " ++ numStr exercise.participant_range_min ++ "-" ++
          numStr exercise.participant_range_max) } := by
  rw [checkExerciseFit_def, if_pos h]

theorem checkExerciseFit_pastFilters (exercise : Exercise) (block : AgendaBlock)
    (room : RoomLayout) (pc : ℚ) (lvl : ExperienceLevel)
    (h1 : ¬(pc < exercise.participant_range_min ∨
      pc > exercise.participant_range_max))
    (h2 : ¬(exercise.requires_tables && !room.has_tables) = true)
    (h3 : ¬exercise.requires_flipchart_count > room.flipchart_count)
    (h4 : ¬(exercise.requires_screen && !room.has_screen) = true) :
    checkExerciseFit exercise block room pc lvl =
      (if (estimateBlockTime
          { base_minutes := exercise.time_range_max
            experience_level := lvl
            participant_count := pc
            method := exercise.type
            room_template := room.template
            question_config := block.question_config }).total_minutes >
          block.window_minutes then
        { exercise_id := exercise.id, fits := false,
          estimated_minutes := (estimateBlockTime
            { base_minutes := exercise.time_range_max
              experience_level := lvl
              participant_count := pc
              method := exercise.type
              room_template := room.template
              question_config := block.question_config }).total_minutes,
          reason := some ("Estimated " ++ qToFixed1 (estimateBlockTime
            { base_minutes := exercise.time_range_max
              experience_level := lvl
              participant_count := pc
              method := exercise.type
              room_template := room.template
              question_config := block.question_config }).total_minutes ++
            " min exceeds " ++ numStr block.window_minutes ++ " min window") }
      else
        { exercise_id := exercise.id, fits := true,
          estimated_minutes := (estimateBlockTime
            { base_minutes := exercise.time_range_max
              experience_level := lvl
              participant_count := pc
              method := exercise.type
              room_template := room.template
              question_config := block.question_config }).total_minutes }) := by
  rw [checkExerciseFit_def, if_neg h1, if_neg h2, if_neg h3, if_neg h4]

/-- C8: the hard filters use inclusive boundaries: a participant count equal
to `participant_range_min` or `participant_range_max` passes the range
filter (and the whole check succeeds when every later filter passes), a
count outside the range fails with the "outside range" reason citing both
bounds, and a `requires_flipchart_count` equal to the room's
`flipchart_count` passes the flipchart filter. -/
theorem checkExerciseFit_inclusive_boundaries (exercise : Exercise)
    (block : AgendaBlock) (room : RoomLayout) (pc : ℚ)
    (lvl : ExperienceLevel) :
    ((pc < exercise.participant_range_min ∨
        pc > exercise.participant_range_max) →
      checkExerciseFit exercise block room pc lvl =
        { exercise_id := exercise.id, fits := false, estimated_minutes := 0,
          reason := some ("Participant count " ++ numStr pc ++
            " outside range " ++ numStr exercise.participant_range_min ++ "-" ++
            numStr exercise.participant_range_max) }) ∧
    ((pc = exercise.participant_range_min ∨
        pc = exercise.participant_range_max) →
      exercise.participant_range_min ≤ exercise.participant_range_max →
      (exercise.requires_tables = true → room.has_tables = true) →
      exercise.requires_flipchart_count ≤ room.flipchart_count →
      (exercise.requires_screen = true → room.has_screen = true) →
      (estimateBlockTime
        { base_minutes := exercise.time_range_max
          experience_level := lvl
          participant_count := pc
          method := exercise.type
          room_template := room.template
          question_config := block.question_config }).total_minutes ≤
        block.window_minutes →
      (checkExerciseFit exercise block room pc lvl).fits = true) ∧
    (exercise.requires_flipchart_count = room.flipchart_count →
      exercise.participant_range_min ≤ pc →
      pc ≤ exercise.participant_range_max →
      (exercise.requires_tables = true → room.has_tables = true) →
      (exercise.requires_screen = true → room.has_screen = true) →
      (estimateBlockTime
        { base_minutes := exercise.time_range_max
          experience_level := lvl
          participant_count := pc
          method := exercise.type
          room_template := room.template
          question_config := block.question_config }).total_minutes ≤
        block.window_minutes →
      (checkExerciseFit exercise block room pc lvl).fits = true) := by
  refine ⟨fun h => checkExerciseFit_rangeFail exercise block room pc lvl h,
    ?_, ?_⟩
  · intro hb hmm ht hf hs htime
    have h1 : ¬(pc < exercise.participant_range_min ∨
        pc > exercise.participant_range_max) := by
      rcases hb with rfl | rfl <;> rintro (h | h) <;> linarith
    have h2 : ¬(exercise.requires_tables && !room.has_tables) = true := by
      simp only [Bool.and_eq_true, Bool.not_eq_true', not_and]
      intro ha
      rw [ht ha]
      simp
    have h3 : ¬exercise.requires_flipchart_count > room.flipchart_count :=
      not_lt.mpr hf
    have h4 : ¬(exercise.requires_screen && !room.has_screen) = true := by
      simp only [Bool.and_eq_true, Bool.not_eq_true', not_and]
      intro ha
      rw [hs ha]
      simp
    rw [checkExerciseFit_pastFilters exercise block room pc lvl h1 h2 h3 h4,
      if_neg (not_lt.mpr htime)]
  · intro heq hr1 hr2 ht hs htime
    have h1 : ¬(pc < exercise.participant_range_min ∨
        pc > exercise.participant_range_max) := by
      rintro (h | h) <;> linarith
    have h2 : ¬(exercise.requires_tables && !room.has_tables) = true := by
      simp only [Bool.and_eq_true, Bool.not_eq_true', not_and]
      intro ha
      rw [ht ha]
      simp
    have h3 : ¬exercise.requires_flipchart_count > room.flipchart_count :=
      not_lt.mpr (le_of_eq heq)
    have h4 : ¬(exercise.requires_screen && !room.has_screen) = true := by
      simp only [Bool.and_eq_true, Bool.not_eq_true', not_and]
      intro ha
      rw [hs ha]
      simp
    rw [checkExerciseFit_pastFilters exercise block room pc lvl h1 h2 h3 h4,
      if_neg (not_lt.mpr htime)]

/-- C8 witness: the sample exercise (range 6-20) at 5 participants fails with
the "outside range" reason; at the lower boundary 6 it fits; and a variant
requiring exactly the room's 2 flipcharts fits at 12 participants. -/
theorem checkExerciseFit_inclusive_boundaries_witness :
    (checkExerciseFit sampleExercise sampleBlock sampleRoom 5 .mixed).reason =
      some "Participant count 5 outside range 6-20" ∧
    (checkExerciseFit sampleExercise sampleBlock sampleRoom 6 .mixed).fits = true ∧
    (checkExerciseFit { sampleExercise with requires_flipchart_count := 2 }
      sampleBlock sampleRoom 12 .mixed).fits = true := by
  refine ⟨?_, ?_, ?_⟩
  · have h := (checkExerciseFit_inclusive_boundaries sampleExercise sampleBlock
      sampleRoom 5 .mixed).1 (Or.inl (by norm_num [sampleExercise]))
    rw [h]
    norm_num [sampleExercise, numStr]
    decide
  · exact (checkExerciseFit_inclusive_boundaries sampleExercise sampleBlock
      sampleRoom 6 .mixed).2.1 (Or.inl (by norm_num [sampleExercise]))
      (by norm_num [sampleExercise])
      (by simp [sampleExercise])
      (by norm_num [sampleExercise, sampleRoom])
      (by simp [sampleExercise])
      (by
        simp [estimateBlockTime, calculateExperienceModifier, calculateOverhead,
          calculateInteractionMinutes, sampleExercise, sampleBlock, sampleRoom]
        norm_num)
  · exact (checkExerciseFit_inclusive_boundaries
      { sampleExercise with requires_flipchart_count := 2 } sampleBlock
      sampleRoom 12 .mixed).2.2 (by norm_num [sampleExercise, sampleRoom])
      (by norm_num [sampleExercise])
      (by norm_num [sampleExercise])
      (by simp [sampleExercise])
      (by simp [sampleExercise])
      (by
        simp [estimateBlockTime, calculateExperienceModifier, calculateOverhead,
          calculateInteractionMinutes, sampleExercise, sampleBlock, sampleRoom]
        norm_num)

/-- C3 counterexample: with an exercise of type `groups` inside a block of
type `lecture`, every hard filter passes and the check succeeds, yet the
returned `estimated_minutes` (31.6, computed with the exercise's type as the
method) differs from the projected total computed with the block's type as
the method (26): the claim's "the block's method" does not describe the
code, which passes `exercise.type`. -/
theorem checkExerciseFit_blockMethod_counterexample :
    (checkExerciseFit sampleExercise
      { sampleBlock with type := BlockType.lecture } sampleRoom 12
      ExperienceLevel.mixed).fits = true ∧
    (checkExerciseFit sampleExercise
      { sampleBlock with type := BlockType.lecture } sampleRoom 12
      ExperienceLevel.mixed).estimated_minutes = 31.6 ∧
    (estimateBlockTime
      { base_minutes := sampleExercise.time_range_max
        experience_level := ExperienceLevel.mixed
        participant_count := 12
        method := ({ sampleBlock with type := BlockType.lecture } : AgendaBlock).type
        room_template := sampleRoom.template
        question_config :=
          ({ sampleBlock with type := BlockType.lecture } : AgendaBlock).question_config }).total_minutes = 26 ∧
    (31.6 : ℚ) ≠ 26 := by
  have h := checkExerciseFit_pastFilters sampleExercise
    { sampleBlock with type := BlockType.lecture } sampleRoom 12
    ExperienceLevel.mixed
    (by rintro (hc | hc) <;> norm_num [sampleExercise] at hc)
    (by simp [sampleExercise])
    (by norm_num [sampleExercise, sampleRoom])
    (by simp [sampleExercise])
  have htot : (estimateBlockTime
      { base_minutes := sampleExercise.time_range_max
        experience_level := ExperienceLevel.mixed
        participant_count := 12
        method := sampleExercise.type
        room_template := sampleRoom.template
        question_config :=
          ({ sampleBlock with type := BlockType.lecture } : AgendaBlock).question_config }).total_minutes = 31.6 := by
    simp [estimateBlockTime, calculateExperienceModifier, calculateOverhead,
      calculateInteractionMinutes, sampleExercise, sampleBlock, sampleRoom]
    norm_num
  rw [htot] at h
  rw [h, if_neg (by norm_num [sampleBlock])]
  refine ⟨rfl, rfl, ?_, by norm_num⟩
  simp [estimateBlockTime, calculateExperienceModifier, calculateOverhead,
    calculateInteractionMinutes, sampleExercise, sampleBlock, sampleRoom]
  norm_num

/-- C3 (amended): for every exercise passing the participant-range, tables,
flipchart and screen filters, `checkExerciseFit` computes its projected
estimate by calling the Time Estimation Engine with
`base_minutes = exercise.time_range_max`, the exercise's own type as the
method (the code passes `exercise.type`, not the block's), the block's
`question_config`, the given participant count and experience level; the
result is a failure exactly when the projected total strictly exceeds the
block's `window_minutes` (equality passes), and `estimated_minutes` always
equals the projected total. -/
theorem checkExerciseFit_projected_estimate (exercise : Exercise)
    (block : AgendaBlock) (room : RoomLayout) (pc : ℚ) (lvl : ExperienceLevel)
    (hr1 : exercise.participant_range_min ≤ pc)
    (hr2 : pc ≤ exercise.participant_range_max)
    (ht : exercise.requires_tables = true → room.has_tables = true)
    (hf : exercise.requires_flipchart_count ≤ room.flipchart_count)
    (hs : exercise.requires_screen = true → room.has_screen = true) :
    ((checkExerciseFit exercise block room pc lvl).fits = false ↔
      block.window_minutes < (estimateBlockTime
        { base_minutes := exercise.time_range_max
          experience_level := lvl
          participant_count := pc
          method := exercise.type
          room_template := room.template
          question_config := block.question_config }).total_minutes) ∧
    (checkExerciseFit exercise block room pc lvl).estimated_minutes =
      (estimateBlockTime
        { base_minutes := exercise.time_range_max
          experience_level := lvl
          participant_count := pc
          method := exercise.type
          room_template := room.template
          question_config := block.question_config }).total_minutes := by
  have h1 : ¬(pc < exercise.participant_range_min ∨
      pc > exercise.participant_range_max) := by
    rintro (h | h) <;> linarith
  have h2 : ¬(exercise.requires_tables && !room.has_tables) = true := by
    simp only [Bool.and_eq_true, Bool.not_eq_true', not_and]
    intro ha
    rw [ht ha]
    simp
  have h3 : ¬exercise.requires_flipchart_count > room.flipchart_count :=
    not_lt.mpr hf
  have h4 : ¬(exercise.requires_screen && !room.has_screen) = true := by
    simp only [Bool.and_eq_true, Bool.not_eq_true', not_and]
    intro ha
    rw [hs ha]
    simp
  rw [checkExerciseFit_pastFilters exercise block room pc lvl h1 h2 h3 h4]
  by_cases h5 : (estimateBlockTime
      { base_minutes := exercise.time_range_max
        experience_level := lvl
        participant_count := pc
        method := exercise.type
        room_template := room.template
        question_config := block.question_config }).total_minutes >
      block.window_minutes
  · rw [if_pos h5]
    exact ⟨iff_of_true rfl h5, rfl⟩
  · rw [if_neg h5]
    exact ⟨iff_of_false (by simp) h5, rfl⟩

/-- C3 (amended) witness: the sample exercise in the sample 45-minute block
fits with the projected total 31.6, computed with method `groups` (the
exercise's type). -/
theorem checkExerciseFit_projected_estimate_witness :
    ((checkExerciseFit sampleExercise sampleBlock sampleRoom 12 .mixed).fits = false ↔
      sampleBlock.window_minutes < (estimateBlockTime
        { base_minutes := sampleExercise.time_range_max
          experience_level := .mixed
          participant_count := 12
          method := sampleExercise.type
          room_template := sampleRoom.template
          question_config := sampleBlock.question_config }).total_minutes) ∧
    (checkExerciseFit sampleExercise sampleBlock sampleRoom 12 .mixed).estimated_minutes =
      (estimateBlockTime
        { base_minutes := sampleExercise.time_range_max
          experience_level := .mixed
          participant_count := 12
          method := sampleExercise.type
          room_template := sampleRoom.template
          question_config := sampleBlock.question_config }).total_minutes :=
  checkExerciseFit_projected_estimate sampleExercise sampleBlock sampleRoom 12
    .mixed (by norm_num [sampleExercise]) (by norm_num [sampleExercise])
    (by simp [sampleExercise]) (by norm_num [sampleExercise, sampleRoom])
    (by simp [sampleExercise])

/-- The body of `scoreExercise` with its intermediate bindings zeta-expanded
(definitional equality). -/
theorem scoreExercise_def (exercise : Exercise) (block : AgendaBlock)
    (estimated_minutes participant_count : ℚ) :
    scoreExercise exercise block estimated_minutes participant_count =
      (if estimated_minutes / block.window_minutes ≤ 1
        then estimated_minutes / block.window_minutes else 0) * 0.4 +
      max 0 (min 1
        (if exercise.participant_range_max - exercise.participant_range_min > 0
          then 1 - |participant_count - (exercise.participant_range_min +
            (exercise.participant_range_max - exercise.participant_range_min) / 2)| /
            ((exercise.participant_range_max - exercise.participant_range_min) / 2)
          else 1)) * 0.3 +
      max 0 (1 - ((if exercise.requires_tables then (1 : ℚ) else 0) +
        exercise.requires_flipchart_count +
        (if exercise.requires_screen then (1 : ℚ) else 0)) * 0.1) * 0.2 +
      1 * 0.1 := rfl

/-- C4: the score of a surviving candidate is the weighted sum
`0.4 × time-fit + 0.3 × participant-match + 0.2 × asset-match + 0.1 × 1`
with the component formulas as the spec words them, and the displayed
`fit_score = round(score × 100) / 100` lies in `[0, 1]`.  The hypotheses are
the caller contract the spec states (positive window, nonnegative estimate
and flipchart requirement). -/
theorem scoreExercise_weighted_sum_and_bounds (exercise : Exercise)
    (block : AgendaBlock) (est pc : ℚ)
    (hw : 0 < block.window_minutes) (he : 0 ≤ est)
    (hfc : 0 ≤ exercise.requires_flipchart_count) :
    scoreExercise exercise block est pc =
      0.4 * (if est / block.window_minutes ≤ 1
        then est / block.window_minutes else 0) +
      0.3 * (if exercise.participant_range_max - exercise.participant_range_min = 0
        then 1
        else max 0 (min 1 (1 - |pc - (exercise.participant_range_min +
            (exercise.participant_range_max - exercise.participant_range_min) / 2)| /
          ((exercise.participant_range_max - exercise.participant_range_min) / 2)))) +
      0.2 * max 0 (1 - 0.1 *
        ((if exercise.requires_tables then (1 : ℚ) else 0) +
          exercise.requires_flipchart_count +
          (if exercise.requires_screen then (1 : ℚ) else 0))) +
      0.1 * 1 ∧
    0 ≤ (jsRound (scoreExercise exercise block est pc * 100) : ℚ) / 100 ∧
    (jsRound (scoreExercise exercise block est pc * 100) : ℚ) / 100 ≤ 1 := by
  have habs : (0 : ℚ) ≤ |pc - (exercise.participant_range_min +
      (exercise.participant_range_max - exercise.participant_range_min) / 2)| :=
    abs_nonneg _
  have hd : (0 : ℚ) ≤ (if exercise.requires_tables then (1 : ℚ) else 0) +
      exercise.requires_flipchart_count +
      (if exercise.requires_screen then (1 : ℚ) else 0) := by
    split_ifs <;> linarith
  have htf0 : (0 : ℚ) ≤ (if est / block.window_minutes ≤ 1
      then est / block.window_minutes else 0) := by
    split_ifs
    · exact div_nonneg he hw.le
    · linarith
  have htf1 : (if est / block.window_minutes ≤ 1
      then est / block.window_minutes else 0) ≤ 1 := by
    split_ifs with hcond
    · exact hcond
    · linarith
  have hpm0 : (0 : ℚ) ≤ max 0 (min 1
      (if exercise.participant_range_max - exercise.participant_range_min > 0
        then 1 - |pc - (exercise.participant_range_min +
          (exercise.participant_range_max - exercise.participant_range_min) / 2)| /
          ((exercise.participant_range_max - exercise.participant_range_min) / 2)
        else 1)) := le_max_left 0 _
  have hpm1 : max 0 (min 1
      (if exercise.participant_range_max - exercise.participant_range_min > 0
        then 1 - |pc - (exercise.participant_range_min +
          (exercise.participant_range_max - exercise.participant_range_min) / 2)| /
          ((exercise.participant_range_max - exercise.participant_range_min) / 2)
        else 1)) ≤ 1 :=
    max_le (by norm_num) (min_le_left 1 _)
  have ham0 : (0 : ℚ) ≤ max 0 (1 - ((if exercise.requires_tables then (1 : ℚ) else 0) +
      exercise.requires_flipchart_count +
      (if exercise.requires_screen then (1 : ℚ) else 0)) * 0.1) := le_max_left 0 _
  have ham1 : max 0 (1 - ((if exercise.requires_tables then (1 : ℚ) else 0) +
      exercise.requires_flipchart_count +
      (if exercise.requires_screen then (1 : ℚ) else 0)) * 0.1) ≤ 1 :=
    max_le (by norm_num) (by nlinarith)
  have hs0 : (0 : ℚ) ≤ scoreExercise exercise block est pc := by
    rw [scoreExercise_def]
    linarith
  have hs1 : scoreExercise exercise block est pc ≤ 1 := by
    rw [scoreExercise_def]
    linarith
  refine ⟨?_, ?_, ?_⟩
  · rw [scoreExercise_def]
    have hpm : max 0 (min 1
        (if exercise.participant_range_max - exercise.participant_range_min > 0
          then 1 - |pc - (exercise.participant_range_min +
            (exercise.participant_range_max - exercise.participant_range_min) / 2)| /
            ((exercise.participant_range_max - exercise.participant_range_min) / 2)
          else 1)) =
        (if exercise.participant_range_max - exercise.participant_range_min = 0
          then 1
          else max 0 (min 1 (1 - |pc - (exercise.participant_range_min +
              (exercise.participant_range_max - exercise.participant_range_min) / 2)| /
            ((exercise.participant_range_max - exercise.participant_range_min) / 2)))) := by
      rcases lt_trichotomy
        (exercise.participant_range_max - exercise.participant_range_min) 0 with
        hneg | hzero | hpos
      · rw [if_neg (by linarith), if_neg (by linarith)]
        have hdiv : |pc - (exercise.participant_range_min +
            (exercise.participant_range_max - exercise.participant_range_min) / 2)| /
            ((exercise.participant_range_max - exercise.participant_range_min) / 2) ≤ 0 :=
          div_nonpos_iff.mpr (Or.inl ⟨habs, by linarith⟩)
        have h1 : min 1 (1 - |pc - (exercise.participant_range_min +
            (exercise.participant_range_max - exercise.participant_range_min) / 2)| /
            ((exercise.participant_range_max - exercise.participant_range_min) / 2)) =
            1 := min_eq_left (by linarith)
        rw [h1, min_self]
      · rw [if_neg (by linarith), if_pos hzero, min_self]
        exact max_eq_right (by norm_num)
      · rw [if_pos hpos, if_neg (by linarith)]
    rw [hpm]
    ring_nf
  · rw [div_nonneg_iff]
    left
    constructor
    · have : ((0 : ℤ) : ℚ) ≤ scoreExercise exercise block est pc * 100 + 1 / 2 := by
        push_cast
        linarith
      exact_mod_cast Int.cast_nonneg.mpr (Int.le_floor.mpr this)
    · norm_num
  · rw [div_le_one (by norm_num)]
    have hlt : jsRound (scoreExercise exercise block est pc * 100) < 101 := by
      unfold jsRound
      rw [Int.floor_lt]
      push_cast
      linarith
    have : (jsRound (scoreExercise exercise block est pc * 100) : ℚ) ≤ 100 := by
      exact_mod_cast Int.lt_add_one_iff.mp hlt
    linarith

/-- C4 witness: the sample exercise in the sample block at estimate 31.6 and
12 participants — the rounded fit score lies in `[0, 1]`, with the positivity
and nonnegativity hypotheses discharged numerically. -/
theorem scoreExercise_weighted_sum_and_bounds_witness :
    0 ≤ (jsRound (scoreExercise sampleExercise sampleBlock 31.6 12 * 100) : ℚ) / 100 ∧
    (jsRound (scoreExercise sampleExercise sampleBlock 31.6 12 * 100) : ℚ) / 100 ≤ 1 := by
  have h := scoreExercise_weighted_sum_and_bounds sampleExercise sampleBlock
    31.6 12 (by norm_num [sampleBlock]) (by norm_num)
    (by norm_num [sampleExercise])
  exact ⟨h.2.1, h.2.2⟩

theorem mem_insertByScoreDesc (x a : ℕ × ScoredEntry)
    (l : List (ℕ × ScoredEntry)) :
    a ∈ insertByScoreDesc x l ↔ a = x ∨ a ∈ l := by
  induction l with
  | nil => simp [insertByScoreDesc]
  | cons y ys ih =>
    simp only [insertByScoreDesc]
    split_ifs with h
    · simp [or_comm, or_assoc]
    · simp [ih]
      tauto

theorem insertByScoreDesc_sorted (x : ℕ × ScoredEntry)
    (l : List (ℕ × ScoredEntry))
    (h : List.Sorted (fun a b : ℕ × ScoredEntry => b.2.score ≤ a.2.score) l) :
    List.Sorted (fun a b : ℕ × ScoredEntry => b.2.score ≤ a.2.score)
      (insertByScoreDesc x l) := by
  induction l with
  | nil => simp [insertByScoreDesc]
  | cons y ys ih =>
    rw [List.sorted_cons] at h
    obtain ⟨hy, hys⟩ := h
    simp only [insertByScoreDesc]
    split_ifs with hcmp
    · rw [List.sorted_cons]
      refine ⟨?_, List.sorted_cons.mpr ⟨hy, hys⟩⟩
      intro b hb
      rcases List.mem_cons.mp hb with rfl | hb
      · exact hcmp
      · exact le_trans (hy b hb) hcmp
    · rw [List.sorted_cons]
      refine ⟨?_, ih hys⟩
      intro b hb
      rcases (mem_insertByScoreDesc x b ys).mp hb with rfl | hb
      · exact le_of_not_le hcmp
      · exact hy b hb

theorem sortByScoreDesc_sorted (l : List (ℕ × ScoredEntry)) :
    List.Sorted (fun a b : ℕ × ScoredEntry => b.2.score ≤ a.2.score)
      (sortByScoreDesc l) := by
  induction l with
  | nil => simp [sortByScoreDesc]
  | cons x xs ih => exact insertByScoreDesc_sorted x (sortByScoreDesc xs) ih

theorem jsRound_mono {a b : ℚ} (h : a ≤ b) : jsRound a ≤ jsRound b :=
  Int.floor_le_floor (by linarith)

theorem convertPick_fit_score_mono (block : AgendaBlock)
    {a b : ℕ × ScoredEntry} (h : b.2.score ≤ a.2.score) :
    (convertPick block b).fit_score ≤ (convertPick block a).fit_score := by
  simp only [convertPick]
  have hr : jsRound (b.2.score * 100) ≤ jsRound (a.2.score * 100) :=
    jsRound_mono (by linarith)
  exact (div_le_div_iff_of_pos_right (by norm_num)).mpr (by exact_mod_cast hr)

theorem getRecommendations_length_le (library : List Exercise)
    (block : AgendaBlock) (room : RoomLayout) (pc : ℚ)
    (lvl : ExperienceLevel) :
    (getRecommendations library block room pc lvl).length ≤ 5 := by
  simp only [getRecommendations, List.length_map, List.length_append,
    List.length_take]
  omega

theorem getRecommendations_take3 (library : List Exercise)
    (block : AgendaBlock) (room : RoomLayout) (pc : ℚ)
    (lvl : ExperienceLevel) :
    (getRecommendations library block room pc lvl).take 3 =
      ((rankCandidates (survivingCandidates library block room pc lvl)).take 3).map
        (convertPick block) := by
  simp only [getRecommendations]
  set sorted := rankCandidates (survivingCandidates library block room pc lvl)
    with hsorted
  by_cases hlen : 3 ≤ sorted.length
  · rw [List.map_append, List.take_append_eq_append_take]
    have hlen3 : (List.map (convertPick block) (sorted.take 3)).length = 3 := by
      rw [List.length_map, List.length_take]
      omega
    rw [hlen3, List.take_of_length_le (le_of_eq hlen3), Nat.sub_self,
      List.take_zero, List.append_nil]
  · push_neg at hlen
    have hmain : sorted.take 3 = sorted := List.take_of_length_le (by omega)
    rw [hmain]
    have hfilter1 : (sorted.filter fun s =>
        !((sorted.map Prod.fst).contains s.fst) &&
          decide (s.snd.exercise.time_range_max <
            block.window_minutes * 0.7)) = [] := by
      rw [List.filter_eq_nil_iff]
      intro a ha
      have hmem : a.fst ∈ sorted.map Prod.fst := List.mem_map_of_mem Prod.fst ha
      simp [hmem]
    rw [hfilter1]
    have hfilter2 : (sorted.filter fun s =>
        !((sorted.map Prod.fst).contains s.fst) &&
          !((((sorted.filter fun s =>
            !((sorted.map Prod.fst).contains s.fst) &&
              decide (s.snd.exercise.time_range_max <
                block.window_minutes * 0.7)).take 2).map Prod.fst).contains s.fst)) = [] := by
      rw [List.filter_eq_nil_iff]
      intro a ha
      have hmem : a.fst ∈ sorted.map Prod.fst := List.mem_map_of_mem Prod.fst ha
      simp [hmem]
    rw [hfilter1] at hfilter2
    rw [hfilter2]
    simp only [List.take_nil, List.nil_append, List.append_nil]
    rw [List.take_of_length_le (by rw [List.length_map]; omega)]

/-- C2: for every catalog, block, room, participant count and experience
level, `getRecommendations` returns at most 5 items; its first min(3, n)
items are the surviving candidates sorted by score descending (stated as:
the first three returned items are the top three ranked survivors converted
to recommendations, and their displayed fit scores are descending); and the
whole list — main picks followed by up-to-two rescue picks preferring the
`time_range_max < 0.7 × window` candidates and backfilled from the remaining
highest-scored ones — coincides with the list the specification describes
(`getRecommendationsSpec`). -/
theorem getRecommendations_shape (library : List Exercise)
    (block : AgendaBlock) (room : RoomLayout) (pc : ℚ)
    (lvl : ExperienceLevel) :
    (getRecommendations library block room pc lvl).length ≤ 5 ∧
    (getRecommendations library block room pc lvl).take 3 =
      ((rankCandidates (survivingCandidates library block room pc lvl)).take 3).map
        (convertPick block) ∧
    getRecommendations library block room pc lvl =
      getRecommendationsSpec library block room pc lvl ∧
    List.Sorted (fun a b : Recommendation => b.fit_score ≤ a.fit_score)
      ((getRecommendations library block room pc lvl).take 3) := by
  refine ⟨getRecommendations_length_le library block room pc lvl,
    getRecommendations_take3 library block room pc lvl,
    by simp only [getRecommendations, getRecommendationsSpec, List.append_assoc],
    ?_⟩
  rw [getRecommendations_take3]
  rw [List.Sorted, List.pairwise_map]
  have hsorted : List.Sorted (fun a b : ℕ × ScoredEntry => b.2.score ≤ a.2.score)
      ((rankCandidates (survivingCandidates library block room pc lvl)).take 3) :=
    List.Pairwise.sublist (List.take_sublist 3 _) (sortByScoreDesc_sorted _)
  exact hsorted.imp (convertPick_fit_score_mono block)

/-- C10 witness: at 3 participants the sample exercise fails the range filter
with a reason and a zero estimate; with a 10-minute window it fails the time
check with the full projected total 31.6 as its estimate. -/
theorem checkExerciseFit_failure_reporting_witness :
    (checkExerciseFit sampleExercise sampleBlock sampleRoom 3 .mixed).estimated_minutes = 0 ∧
    ((checkExerciseFit sampleExercise sampleBlock sampleRoom 3 .mixed).reason.isSome = true ↔
      (checkExerciseFit sampleExercise sampleBlock sampleRoom 3 .mixed).fits = false) ∧
    (checkExerciseFit sampleExercise { sampleBlock with window_minutes := 10 }
        sampleRoom 12 .mixed).fits = false ∧
    (checkExerciseFit sampleExercise { sampleBlock with window_minutes := 10 }
        sampleRoom 12 .mixed).estimated_minutes = 31.6 := by
  have hz := (checkExerciseFit_failure_reporting sampleExercise sampleBlock
    sampleRoom 3 .mixed).2.1 (Or.inl (Or.inl (by norm_num [sampleExercise])))
  have hiff := (checkExerciseFit_failure_reporting sampleExercise sampleBlock
    sampleRoom 3 .mixed).1
  have htot : (estimateBlockTime
      { base_minutes := sampleExercise.time_range_max
        experience_level := .mixed
        participant_count := 12
        method := sampleExercise.type
        room_template := sampleRoom.template
        question_config := ({ sampleBlock with window_minutes := 10 } : AgendaBlock).question_config }).total_minutes = 31.6 := by
    simp [estimateBlockTime, calculateExperienceModifier, calculateOverhead,
      calculateInteractionMinutes, sampleExercise, sampleBlock, sampleRoom]
    norm_num
  have htime := (checkExerciseFit_failure_reporting sampleExercise
    { sampleBlock with window_minutes := 10 } sampleRoom 12 .mixed).2.2
    (by
      intro h
      rcases h with h | h | h | h
      · rcases h with h | h <;> norm_num [sampleExercise] at h
      · norm_num [sampleExercise] at h
      · norm_num [sampleExercise, sampleRoom] at h
      · norm_num [sampleExercise] at h)
    (by rw [htot]; norm_num [sampleBlock])
  exact ⟨hz, hiff, htime.1, htime.2.trans htot⟩
